import Mathlib

/-!
Verification of the sentry-trello repository (src/sentry_trello/client.py and
src/sentry_trello/plugin.py) against its natural-language specification.

The Python code is shallowly embedded: JSON values are an inductive type,
the HTTP layer is an oracle (`Transport`) mapping each outgoing request to
either a parsed JSON response or a `RequestException`, and each Python
function becomes a Lean function returning the list of requests it issued
together with an `Except PyErr` result (Python exceptions are the error
constructors of `PyErr`).
-/

/-- A JSON value, as produced by `json.loads` on a Trello response. -/
inductive Json where
  | null : Json
  | str : String → Json
  | arr : List Json → Json
  | obj : List (String × Json) → Json

/-- The slice of an HTTP response object that the plugin inspects
(`response.status_code`, `response.text`). -/
structure HttpResponse where
  status_code : Nat
  text : String
deriving DecidableEq

/-- Python `requests.exceptions.RequestException`: carries `str(e)` (`msg`) and an
optional `response` attribute. -/
structure RequestException where
  msg : String
  response : Option HttpResponse
deriving DecidableEq

/-- The Python exceptions that the embedded code can raise. -/
inductive PyErr where
  | requestException : RequestException → PyErr
  | keyError : String → PyErr
  | typeError : String → PyErr
  | valueError : String → PyErr
  | validationError : String → PyErr

/-- The arguments `TrelloClient._request` hands to the `requests` session:
url, lower-cased method, query-parameter dict (a value of `none` is Python
`None`), optional JSON body, timeout. -/
structure Request where
  url : String
  method : String
  params : List (String × Option String)
  data : Option Json
  timeout : Nat

/-- The HTTP world: maps a request to the parsed JSON body of a successful
response, or to the `RequestException` that `raise_for_status` / the
connection raised. -/
def Transport : Type := Request → Except RequestException Json

/-- Association-list lookup, modelling Python `d[k]` / `d.get(k)` on the
string-keyed dicts the code uses. -/
def alookup {β : Type} : List (String × β) → String → Option β
  | [], _ => none
  | (k, v) :: rest, key => if k = key then some v else alookup rest key

/-- Whether a dict (as an association list) already has key `k`. -/
def hasKey {β : Type} (l : List (String × β)) (k : String) : Bool :=
  l.any (fun kv => kv.1 == k)

/-- Python `dict.setdefault k v`: insert `(k, v)` only when `k` is absent. -/
def setdefault {β : Type} (l : List (String × β)) (k : String) (v : β) :
    List (String × β) :=
  if hasKey l k then l else l ++ [(k, v)]

/-- Python `path.lstrip('/')` on the character list of the path. -/
def lstripChars : List Char → List Char
  | [] => []
  | c :: cs => if c = '/' then lstripChars cs else c :: cs

/-- Python `path.lstrip('/')` (client.py line 16). -/
def lstripSlash (s : String) : String := String.mk (lstripChars s.data)

/-- Python `str(x)` via `'%s' % x`, as used to splice JSON values into URL paths.
Faithful for the string and `None` cases, which are the only ones the
verified claims exercise; container reprs are abbreviated. -/
def pyStr : Json → String
  | .str s => s
  | .null => "None"
  | .arr _ => "[list]"
  | .obj _ => "[dict]"

/-- A Python `Optional[str]` argument spliced into a JSON body:
`None` becomes JSON `null`. -/
def jsonOfOptStr : Option String → Json
  | none => Json.null
  | some s => Json.str s

/-- Python `method.lower()` on the character list of the method string. -/
def toLowerStr (s : String) : String := String.mk (s.data.map Char.toLower)

/-- State of `TrelloClient.__init__`: `_apikey`, `_token` (default `None`),
`_timeout` (default 5). -/
structure TrelloClient where
  apikey : String
  token : Option String
  timeout : Nat
deriving DecidableEq

/-- Source: `TrelloClient.base_url = 'https://trello.com/1/'`. -/
def TrelloClient.base_url : String := "https://trello.com/1/"

/-- The request object `TrelloClient._request` (client.py lines 15-30)
builds and passes to the session:
`path = path.lstrip('/')`; `url = '%s/%s' % (base_url, path)`;
`if not params: params = dict()`; `params.setdefault('key', apikey)`;
`params.setdefault('token', token)`; dispatch on `method.lower()`. -/
def TrelloClient.buildRequest (c : TrelloClient) (path : String)
    (method : String) (params0 : List (String × Option String))
    (data : Option Json) : Request :=
  let p := lstripSlash path
  let url := TrelloClient.base_url ++ "/" ++ p
  let params1 := setdefault params0 "key" (some c.apikey)
  let params2 := setdefault params1 "token" c.token
  ⟨url, toLowerStr method, params2, data, c.timeout⟩

/-- Embeds `TrelloClient._request` (client.py lines 15-33): build the request,
let the session issue it, `raise_for_status`, `json.loads` the body.
Returns the issued requests together with the outcome; a transport
failure is a `RequestException`. -/
def TrelloClient.request (c : TrelloClient) (t : Transport) (path : String)
    (method : String) (params : List (String × Option String))
    (data : Option Json) : List Request × Except PyErr Json :=
  let req := c.buildRequest path method params data
  ([req], (t req).mapError PyErr.requestException)

/-- Embeds `TrelloClient.get_organization_board` (client.py lines 35-41). -/
def TrelloClient.get_organization_board (c : TrelloClient) (t : Transport)
    (org_id_or_name : String) (fields : Option String) :
    List Request × Except PyErr Json :=
  c.request t ("/organizations/" ++ org_id_or_name ++ "/boards") "GET"
    [("fields", fields)] none

/-- Embeds `TrelloClient.get_organization_list` (client.py lines 43-49). -/
def TrelloClient.get_organization_list (c : TrelloClient) (t : Transport)
    (member_id_or_username : String) (fields : Option String) :
    List Request × Except PyErr Json :=
  c.request t ("/members/" ++ member_id_or_username ++ "/organizations") "GET"
    [("fields", fields)] none

/-- Embeds `TrelloClient.get_board_list` (client.py lines 51-57). -/
def TrelloClient.get_board_list (c : TrelloClient) (t : Transport)
    (board_id : String) (fields : Option String) :
    List Request × Except PyErr Json :=
  c.request t ("/boards/" ++ board_id ++ "/lists") "GET"
    [("fields", fields)] none

/-- Embeds `TrelloClient.new_card` (client.py lines 59-68): POST to `/cards` with
JSON body exactly the dict with keys `name`, `idList`, `desc`. -/
def TrelloClient.new_card (c : TrelloClient) (t : Transport)
    (name idList : String) (desc : Option String) :
    List Request × Except PyErr Json :=
  c.request t "/cards" "POST" []
    (some (Json.obj
      [("name", Json.str name), ("idList", Json.str idList),
       ("desc", jsonOfOptStr desc)]))

/-- A fixed demonstration client used for concrete evaluations. -/
def cDemo : TrelloClient := ⟨"key123", some "tok456", 5⟩

/-- Python subscripting `j[k]` on a parsed JSON value: a `KeyError` when the
key is absent from a dict, a `TypeError` when the value is not a dict
(string indexing of lists, etc.). -/
def jGet : Json → String → Except PyErr Json
  | .obj fields, k =>
    match alookup fields k with
    | some v => .ok v
    | none => .error (.keyError k)
  | _, k => .error (.typeError ("indices must be integers, got str: " ++ k))

/-- Python `for x in j`: iterating a JSON list yields its elements, a dict
yields its keys, anything else raises `TypeError` (character iteration of
strings is not needed by any caller and is folded into the error case). -/
def iterElems : Json → Except PyErr (List Json)
  | .arr xs => .ok xs
  | .obj fields => .ok (fields.map (fun kv => Json.str kv.1))
  | _ => .error (.typeError "object is not iterable")

/-- The loop body shared by `organizations_to_options` (client.py 72-74)
and the inner loop of `boards_to_options` (client.py 83-84): build the
tuple of `(x['id'], x['name'])` pairs in iteration order. -/
def id_name_options : List Json → Except PyErr (List (Json × Json))
  | [] => .ok []
  | x :: xs =>
    match jGet x "id" with
    | .error e => .error e
    | .ok i =>
      match jGet x "name" with
      | .error e => .error e
      | .ok n =>
        match id_name_options xs with
        | .error e => .error e
        | .ok rest => .ok ((i, n) :: rest)

/-- Embeds `TrelloClient.organizations_to_options` (client.py lines 70-75):
fetch `/members/{member}/organizations` with `fields='name'` and turn the
result into `(id, name)` pairs. -/
def TrelloClient.organizations_to_options (c : TrelloClient) (t : Transport)
    (member_id_or_username : String) :
    List Request × Except PyErr (List (Json × Json)) :=
  let (tr, r) := c.get_organization_list t member_id_or_username (some "name")
  match r with
  | .error e => (tr, .error e)
  | .ok js =>
    match iterElems js with
    | .error e => (tr, .error e)
    | .ok orgs => (tr, id_name_options orgs)

/-- The outer loop of `boards_to_options` (client.py lines 80-85): for each
board fetch `/boards/{board['id']}/lists` with `fields='name'`, build the
`(l['id'], l['name'])` group, and pair it with `board['name']`. Returns the
requests issued so far together with the outcome. -/
def TrelloClient.board_group (c : TrelloClient) (t : Transport) :
    List Json → List Request × Except PyErr (List (Json × List (Json × Json)))
  | [] => ([], .ok [])
  | b :: bs =>
    match jGet b "id" with
    | .error e => ([], .error e)
    | .ok bid =>
      let (tr1, r1) := c.get_board_list t (pyStr bid) (some "name")
      match r1 with
      | .error e => (tr1, .error e)
      | .ok js =>
        match iterElems js with
        | .error e => (tr1, .error e)
        | .ok ls =>
          match id_name_options ls with
          | .error e => (tr1, .error e)
          | .ok grp =>
            match jGet b "name" with
            | .error e => (tr1, .error e)
            | .ok bname =>
              let (tr2, r2) := TrelloClient.board_group c t bs
              (tr1 ++ tr2, r2.map (fun rest => (bname, grp) :: rest))

/-- Embeds `TrelloClient.boards_to_options` (client.py lines 77-86). -/
def TrelloClient.boards_to_options (c : TrelloClient) (t : Transport)
    (organization : String) :
    List Request × Except PyErr (List (Json × List (Json × Json))) :=
  let (tr, r) := c.get_organization_board t organization (some "name")
  match r with
  | .error e => (tr, .error e)
  | .ok js =>
    match iterElems js with
    | .error e => (tr, .error e)
    | .ok boards =>
      let (tr2, r2) := TrelloClient.board_group c t boards
      (tr ++ tr2, r2)

/-- Message `TrelloCard.error_messages['invalid_auth']` (plugin.py line 102). -/
def invalid_auth_msg : String :=
  "Invalid credentials. Please check your key and token and try again."

/-- Message `TrelloCard.error_messages['api_failure']` (plugin.py line 103). -/
def api_failure_msg : String :=
  "An unknown error occurred while fetching data from Trello."

/-- The test `exc.response is not None and exc.response.status_code == 401`
(plugin.py line 282). -/
def is401 (e : RequestException) : Bool :=
  match e.response with
  | some r => r.status_code == 401
  | none => false

/-- Python string truthiness of an optional value, as used by
`get_from_initial`'s `or` and by `if key_value and token_value`. -/
def pyTruthyS : Option String → Bool
  | none => false
  | some s => !s.data.isEmpty

/-- The client `TrelloClient(key_value, token_value)` as constructed in `get_config`
(plugin.py line 265); defaults give timeout 5 and the token is passed
positionally. Only evaluated when both values are truthy strings. -/
def config_client (kv tv : Option String) : TrelloClient :=
  ⟨kv.getD "", tv, 5⟩

/-- The effect of `TrelloCard.get_config` (plugin.py lines 264-286) on
`self.client_errors`: when both credentials are truthy it fetches the
organizations; a `RequestException` there appends `invalid_auth` for a
401 response and `api_failure` otherwise (including a missing response),
while any non-`RequestException` escape propagates. The construction of
the `key`/`token`/`organization` form fields touches no network and never
changes `client_errors`, so it is not repeated here. -/
def get_config_errors (errors0 : List String) (kv tv : Option String)
    (t : Transport) : Except PyErr (List String) :=
  if pyTruthyS kv && pyTruthyS tv then
    match ((config_client kv tv).organizations_to_options t "me").2 with
    | .ok _ => .ok errors0
    | .error (.requestException e) =>
        .ok (errors0 ++
          [if is401 e then invalid_auth_msg else api_failure_msg])
    | .error e => .error e
  else
    .ok errors0

/-- Embeds `TrelloCard.validate_config` (plugin.py lines 288-296): when
`client_errors` is non-empty it calls `reset_options`, empties the list and
raises `PluginError(errors[0])`; otherwise it returns the config unchanged.
Result: the outcome, whether `reset_options` was called, and the new
`client_errors` list. -/
def TrelloCard.validate_config {α : Type} (client_errors : List String)
    (config : α) : Except String α × Bool × List String :=
  match client_errors with
  | [] => (.ok config, false, [])
  | e :: _ => (.error e, true, [])

/-- Embeds `TrelloCard.view_ajax` (plugin.py lines 166-172): an empty JSON object
unless the `action` query parameter equals `lists`; otherwise the board's
lists fetched through `get_board_list(board_id, fields='name')`, wrapped
as the `result` field (a missing `board_id` raises `KeyError`). -/
def TrelloCard.view_ajax (c : TrelloClient) (t : Transport)
    (query : List (String × String)) : List Request × Except PyErr Json :=
  if (alookup query "action").getD "" ≠ "lists" then
    ([], .ok (Json.obj []))
  else
    match alookup query "board_id" with
    | none => ([], .error (.keyError "board_id"))
    | some board_id =>
      let (tr, r) := c.get_board_list t board_id (some "name")
      (tr, r.map (fun lists => Json.obj [("result", lists)]))

/-- Python `issue_id.split('/', 1)` on a character list: split at the first `/`,
keeping the remainder (which may itself contain `/`) intact; `none` when
there is no `/`, in which case the two-variable unpacking raises
`ValueError`. -/
def splitFirstSlash : List Char → Option (List Char × List Char)
  | [] => none
  | c :: cs =>
    if c = '/' then some ([], cs)
    else
      match splitFirstSlash cs with
      | none => none
      | some p => some (c :: p.1, p.2)

/-- Embeds `TrelloCard.get_issue_url` (plugin.py lines 204-206):
`iid, iurl = issue_id.split('/', 1); return iurl`. -/
def TrelloCard.get_issue_url (issue_id : String) : Except PyErr String :=
  match splitFirstSlash issue_id.data with
  | none => .error (.valueError "not enough values to unpack")
  | some p => .ok (String.mk p.2)

/-- Embeds `TrelloCard.get_issue_label` (plugin.py lines 200-202):
`iid, iurl = issue_id.split('/', 1); return 'Trello-%s' % iid`. -/
def TrelloCard.get_issue_label (issue_id : String) : Except PyErr String :=
  match splitFirstSlash issue_id.data with
  | none => .error (.valueError "not enough values to unpack")
  | some p => .ok ("Trello-" ++ String.mk p.1)

/-- The value `create_issue` returns (plugin.py line 233):
`'%s/%s' % (card['id'], card['url'])`. -/
def create_issue_result (card : Json) : Except PyErr String :=
  match jGet card "id" with
  | .error e => .error e
  | .ok i =>
    match jGet card "url" with
    | .error e => .error e
    | .ok u => .ok (pyStr i ++ "/" ++ pyStr u)

/-- The parameter names of `TrelloClient.new_card` (client.py line 59):
`name`, `idList`, `desc` (besides `self`). -/
def new_card_param_names : List String := ["name", "idList", "desc"]

/-- The keyword-argument names `create_issue` passes to `new_card`
(plugin.py lines 214-219): `name`, `desc`, `idList`, `pos`. -/
def create_issue_new_card_kwargs : List String :=
  ["name", "desc", "idList", "pos"]

/-- The path of the label-attach request in `create_issue`
(plugin.py line 222): `'/cards/' + card['id'] + '/idLabels'`. -/
def idLabels_path (card_id : String) : String :=
  "/cards/" ++ card_id ++ "/idLabels"

/-- The JSON body of the label-attach request (plugin.py lines 224-226). -/
def exception_label_body : Json :=
  Json.obj [("value", Json.str "5c26950ec6a60131c2fa440d")]

/-- The body of `create_issue`'s `try` block as it would run once the
`new_card` call had bound its arguments (plugin.py lines 214-233): create
the card, POST the exception label to `/cards/{card['id']}/idLabels`,
convert any `RequestException` into the form `ValidationError`
`'Error adding Trello card: %s' % str(e)` (plugin.py lines 229-231), and
finally return `'%s/%s' % (card['id'], card['url'])`. -/
def TrelloCard.create_issue_try_rest (c : TrelloClient) (t : Transport)
    (title desc trello_list : String) : List Request × Except PyErr String :=
  let (tr1, r1) := c.new_card t title trello_list (some desc)
  match r1 with
  | .error (.requestException e) =>
      (tr1, .error (.validationError ("Error adding Trello card: " ++ e.msg)))
  | .error e => (tr1, .error e)
  | .ok card =>
    match jGet card "id" with
    | .error e => (tr1, .error e)
    | .ok cid =>
      let (tr2, r2) := c.request t (idLabels_path (pyStr cid)) "POST" []
        (some exception_label_body)
      match r2 with
      | .error (.requestException e) =>
          (tr1 ++ tr2,
           .error (.validationError ("Error adding Trello card: " ++ e.msg)))
      | .error e => (tr1 ++ tr2, .error e)
      | .ok _ =>
        match jGet card "url" with
        | .error e => (tr1 ++ tr2, .error e)
        | .ok curl => (tr1 ++ tr2, .ok (pyStr cid ++ "/" ++ pyStr curl))

/-- Embeds `TrelloCard.create_issue` (plugin.py lines 211-233): evaluate the
keyword arguments `form_data['title']`, `form_data['description']`,
`form_data['trello_list']` left to right, then perform the call
`trello.new_card(name=..., desc=..., idList=..., pos='top')`. The call
first binds the keywords against `new_card`'s parameter list; a keyword
that is not a parameter raises `TypeError` before `new_card`'s body runs,
and `TypeError` is not caught by the `except RequestException` clause. -/
def TrelloCard.create_issue (c : TrelloClient) (t : Transport)
    (form_data : List (String × String)) :
    List Request × Except PyErr String :=
  match alookup form_data "title" with
  | none => ([], .error (.keyError "title"))
  | some title =>
    match alookup form_data "description" with
    | none => ([], .error (.keyError "description"))
    | some desc =>
      match alookup form_data "trello_list" with
      | none => ([], .error (.keyError "trello_list"))
      | some lst =>
        if create_issue_new_card_kwargs.all
            (fun k => new_card_param_names.contains k) then
          TrelloCard.create_issue_try_rest c t title desc lst
        else
          ([], .error
            (.typeError "new_card() got an unexpected keyword argument"))

/-- Bool test: `pat` begins the character list `s`. -/
def startsWithCL : List Char → List Char → Bool
  | [], _ => true
  | _ :: _, [] => false
  | p :: ps, c :: cs => p == c && startsWithCL ps cs

/-- Bool test: `pat` ends the character list `s`. -/
def endsWithCL (pat s : List Char) : Bool :=
  startsWithCL pat.reverse s.reverse

/-- A path of the shape `pre ++ id ++ suf` for some (possibly empty) id. -/
def pathMatches (pre suf p : String) : Bool :=
  startsWithCL pre.data p.data && endsWithCL suf.data p.data &&
    Nat.ble (pre.data.length + suf.data.length) p.data.length

/-- Modelled from the spec: the four endpoint shapes the spec enumerates
(member organizations, organization boards, board lists, card creation),
as a predicate on the path handed to `_request`. Used only to compare the
spec's endpoint list against the requests the code builds. -/
def spec_listed_path (p : String) : Bool :=
  pathMatches "/members/" "/organizations" p ||
  pathMatches "/organizations/" "/boards" p ||
  pathMatches "/boards/" "/lists" p ||
  p == "/cards"

/-- The request `get_organization_list` builds for a member. -/
def orgsListReq (c : TrelloClient) (member : String) : Request :=
  c.buildRequest ("/members/" ++ member ++ "/organizations") "GET"
    [("fields", some "name")] none

/-- The request `get_organization_board` builds for an organization. -/
def orgBoardsReq (c : TrelloClient) (org : String) : Request :=
  c.buildRequest ("/organizations/" ++ org ++ "/boards") "GET"
    [("fields", some "name")] none

/-- The request `get_board_list` builds for a board id. -/
def boardListsReq (c : TrelloClient) (board_id : String) : Request :=
  c.buildRequest ("/boards/" ++ board_id ++ "/lists") "GET"
    [("fields", some "name")] none

/-- Abstract data of one board as returned by the Trello API: its id, its
name, and the `(id, name)` pairs of its lists. -/
structure BoardData where
  id : String
  name : String
  lists : List (String × String)

/-- The JSON object `{'id': ..., 'name': ...}` for an id/name pair. -/
def mkItemJson (p : String × String) : Json :=
  Json.obj [("id", Json.str p.1), ("name", Json.str p.2)]

/-- The JSON object the boards endpoint returns for one board. -/
def mkBoardJson (b : BoardData) : Json :=
  Json.obj [("id", Json.str b.id), ("name", Json.str b.name)]

/-- Concrete fixture board with one list. -/
def b5a : BoardData := ⟨"1", "Foo", [("15", "List A")]⟩

/-- Concrete fixture board with no lists. -/
def b5b : BoardData := ⟨"9", "Baz", []⟩

/-- A concrete transport serving one organization with two boards, for
evaluating the cascade concretely. -/
def t5 : Transport := fun req =>
  if req.url = "https://trello.com/1//members/me/organizations" then
    .ok (Json.arr [mkItemJson ("3", "Bar")])
  else if req.url = "https://trello.com/1//organizations/3/boards" then
    .ok (Json.arr [mkBoardJson b5a, mkBoardJson b5b])
  else if req.url = "https://trello.com/1//boards/1/lists" then
    .ok (Json.arr [mkItemJson ("15", "List A")])
  else if req.url = "https://trello.com/1//boards/9/lists" then
    .ok (Json.arr [])
  else
    .error ⟨"connection refused", none⟩

/-- A concrete transport that answers the card-creation URL with a card
and anything else with an empty object. -/
def t3 : Transport := fun req =>
  if req.url = "https://trello.com/1//cards" then
    .ok (Json.obj [("id", Json.str "2"),
                   ("url", Json.str "https://example.trello.com/cards/2")])
  else
    .ok (Json.obj [])

/-- A 401 response fixture. -/
def resp401 : HttpResponse := ⟨401, "unauthorized"⟩

/-- A `RequestException` carrying a 401 response. -/
def exc401 : RequestException := ⟨"401 Client Error", some resp401⟩

/-- A transport on which every request fails with `exc401`. -/
def tFail401 : Transport := fun _ => .error exc401

/-- Claim C1: every request built by `_request` carries the `key` and
`token` query parameters whenever the caller-supplied params do not
already contain those names. -/
theorem request_params_always_include_key_and_token
    (c : TrelloClient) (path method : String)
    (params : List (String × Option String)) (data : Option Json)
    (hk : hasKey params "key" = false)
    (ht : hasKey params "token" = false) :
    ("key", some c.apikey) ∈ (c.buildRequest path method params data).params ∧
    ("token", c.token) ∈ (c.buildRequest path method params data).params := by
  unfold TrelloClient.buildRequest setdefault
  simp only [hasKey, List.any_append] at *
  simp [hk, ht]

/-- Witness for C1: a concrete client and a `fields`-only params dict. -/
theorem request_params_always_include_key_and_token_witness :
    ("key", some cDemo.apikey) ∈
      (cDemo.buildRequest "/cards" "GET" [("fields", some "name")] none).params ∧
    ("token", cDemo.token) ∈
      (cDemo.buildRequest "/cards" "GET" [("fields", some "name")] none).params :=
  request_params_always_include_key_and_token cDemo "/cards" "GET"
    [("fields", some "name")] none (by decide) (by decide)

/-- Claim C7: `new_card` issues exactly one request, a POST to the
card-creation path, whose JSON body has exactly the keys `name`, `idList`,
`desc` bound to the arguments, and returns the parsed JSON of the
transport's response. -/
theorem new_card_single_post_with_exact_body (c : TrelloClient)
    (t : Transport) (name idList : String) (desc : Option String) :
    ∃ req,
      c.new_card t name idList desc =
        ([req], (t req).mapError PyErr.requestException) ∧
      req.method = "post" ∧
      req.url = "https://trello.com/1//cards" ∧
      req.data = some (Json.obj
        [("name", Json.str name), ("idList", Json.str idList),
         ("desc", jsonOfOptStr desc)]) := by
  refine ⟨c.buildRequest "/cards" "POST" []
    (some (Json.obj
      [("name", Json.str name), ("idList", Json.str idList),
       ("desc", jsonOfOptStr desc)])), rfl, rfl, rfl, rfl⟩

/-- Claim C10: the URL `_request` builds for path `/cards` contains an
empty path segment, because `base_url` already ends in `/` and
`'%s/%s'` inserts another one; it is not the single-slash URL the tests
(and the claim) expect. -/
theorem request_url_has_double_slash :
    (cDemo.buildRequest "/cards" "GET" [] none).url =
      "https://trello.com/1//cards" ∧
    "https://trello.com/1//cards" ≠ "https://trello.com/1/cards" := by
  constructor
  · rfl
  · decide

/-- Python `str.split('/', 1)` splits exactly at the first slash: the tail may
contain further slashes. -/
theorem splitFirstSlash_append (a b : List Char) (h : '/' ∉ a) :
    splitFirstSlash (a ++ '/' :: b) = some (a, b) := by
  induction a with
  | nil => simp [splitFirstSlash]
  | cons c cs ih =>
    have hc : ¬(c = '/') := by
      intro hh
      exact h (hh ▸ List.mem_cons_self c cs)
    have h2 : '/' ∉ cs := fun hm => h (List.mem_cons_of_mem c hm)
    simp [splitFirstSlash, hc, ih h2]

/-- Claim C9: for a card whose id contains no slash, the `'id/url'` string
built at plugin.py line 233 decodes back through `get_issue_url` to the
card's URL and through `get_issue_label` to `Trello-` followed by the id. -/
theorem issue_id_roundtrip (id url : String) (h : '/' ∉ id.data) :
    create_issue_result
        (Json.obj [("id", Json.str id), ("url", Json.str url)]) =
      .ok (id ++ "/" ++ url) ∧
    TrelloCard.get_issue_url (id ++ "/" ++ url) = .ok url ∧
    TrelloCard.get_issue_label (id ++ "/" ++ url) = .ok ("Trello-" ++ id) := by
  obtain ⟨a⟩ := id
  obtain ⟨b⟩ := url
  have hdata : (String.mk a ++ "/" ++ String.mk b).data = a ++ '/' :: b := by
    simp [String.data_append]
  refine ⟨rfl, ?_, ?_⟩
  · unfold TrelloCard.get_issue_url
    rw [hdata, splitFirstSlash_append a b h]
  · unfold TrelloCard.get_issue_label
    rw [hdata, splitFirstSlash_append a b h]

/-- Witness for C9 at the ids used by the repository's test suite. -/
theorem issue_id_roundtrip_witness :
    TrelloCard.get_issue_url
        ("2" ++ "/" ++ "https://example.trello.com/cards/2") =
      .ok "https://example.trello.com/cards/2" ∧
    TrelloCard.get_issue_label
        ("2" ++ "/" ++ "https://example.trello.com/cards/2") =
      .ok ("Trello-" ++ "2") :=
  ⟨(issue_id_roundtrip "2" "https://example.trello.com/cards/2"
      (by decide)).2.1,
   (issue_id_roundtrip "2" "https://example.trello.com/cards/2"
      (by decide)).2.2⟩

/-- Shared evaluation: with the three form keys present, `create_issue`
reaches the `new_card` call, whose keyword binding rejects `pos`, so the
whole operation raises `TypeError` having issued no request. -/
theorem create_issue_eval (c : TrelloClient) (t : Transport)
    (title desc lst : String) :
    TrelloCard.create_issue c t
        [("title", title), ("description", desc), ("trello_list", lst)] =
      ([], .error
        (.typeError "new_card() got an unexpected keyword argument")) := rfl

/-- Claim C4: the `new_card` invocation in `create_issue` is not
well-formed: the keyword `pos` is not a parameter of `new_card`, so for
every transport and every form data holding the three keys, `create_issue`
raises `TypeError` without issuing the card-creation request. -/
theorem create_issue_pos_kwarg_raises_type_error (c : TrelloClient)
    (t : Transport) (title desc lst : String) :
    ("pos" ∈ create_issue_new_card_kwargs ∧
      "pos" ∉ new_card_param_names) ∧
    TrelloCard.create_issue c t
        [("title", title), ("description", desc), ("trello_list", lst)] =
      ([], .error
        (.typeError "new_card() got an unexpected keyword argument")) :=
  ⟨by decide, create_issue_eval c t title desc lst⟩

/-- Claim C6: because the `new_card` call raises `TypeError` first, no run
of `create_issue` ever produces the `ValidationError` of plugin.py lines
229-231, and none returns normally: the transport-error-to-validation-error
mapping is unreachable. -/
theorem create_issue_never_reaches_validation_error (c : TrelloClient)
    (t : Transport) (title desc lst : String) :
    (∀ s, (TrelloCard.create_issue c t
        [("title", title), ("description", desc),
         ("trello_list", lst)]).2 ≠ .error (.validationError s)) ∧
    (∀ j, (TrelloCard.create_issue c t
        [("title", title), ("description", desc),
         ("trello_list", lst)]).2 ≠ .ok j) := by
  constructor
  · intro s hcontra
    rw [create_issue_eval] at hcontra
    simp at hcontra
  · intro j hcontra
    rw [create_issue_eval] at hcontra
    simp at hcontra

/-- Claim C3: the `try` block of `create_issue` contains a second request,
to `/cards/{card['id']}/idLabels`, which is none of the four endpoint
shapes the spec lists, while the card-creation request itself is. -/
theorem create_issue_label_request_unlisted_endpoint :
    spec_listed_path (idLabels_path "2") = false ∧
    (TrelloCard.create_issue_try_rest cDemo t3 "foo" "A ticket description"
        "15").1.map (fun r => r.url) =
      ["https://trello.com/1//cards",
       "https://trello.com/1//cards/2/idLabels"] ∧
    spec_listed_path "/cards" = true := by
  refine ⟨by decide, rfl, by decide⟩

/-- Claim C2: a `RequestException` while fetching organizations in
`get_config` appends exactly one message to `client_errors`: the
invalid-credentials message precisely when the exception carries a 401
response, the unknown-API-failure message otherwise; `validate_config`
raises `PluginError` with the first recorded message exactly when the list
is non-empty, and then resets the options and empties the list. -/
theorem get_config_401_mapping_and_validate (errors0 : List String)
    (kv tv : Option String) (t : Transport) (e : RequestException)
    (hk : pyTruthyS kv = true) (ht : pyTruthyS tv = true)
    (hfail : ((config_client kv tv).organizations_to_options t "me").2 =
      .error (.requestException e)) :
    get_config_errors errors0 kv tv t =
      .ok (errors0 ++
        [if is401 e then invalid_auth_msg else api_failure_msg]) ∧
    invalid_auth_msg ≠ api_failure_msg ∧
    (∀ cfg : List String,
      TrelloCard.validate_config ([] : List String) cfg =
        (.ok cfg, false, [])) ∧
    (∀ (m : String) (rest : List String) (cfg : List String),
      TrelloCard.validate_config (m :: rest) cfg = (.error m, true, [])) := by
  refine ⟨?_, by decide, fun cfg => rfl, fun m rest cfg => rfl⟩
  simp [get_config_errors, hk, ht, hfail]

/-- Witness for C2: concrete truthy credentials and a transport failing
with a 401-carrying exception. -/
theorem get_config_401_mapping_and_validate_witness :
    get_config_errors [] (some "foo") (some "bar") tFail401 =
      .ok ([] ++
        [if is401 exc401 then invalid_auth_msg else api_failure_msg]) ∧
    invalid_auth_msg ≠ api_failure_msg ∧
    (∀ cfg : List String,
      TrelloCard.validate_config ([] : List String) cfg =
        (.ok cfg, false, [])) ∧
    (∀ (m : String) (rest : List String) (cfg : List String),
      TrelloCard.validate_config (m :: rest) cfg = (.error m, true, [])) :=
  get_config_401_mapping_and_validate [] (some "foo") (some "bar") tFail401
    exc401 (by decide) (by decide) rfl

/-- Claim C8: `view_ajax` answers an empty JSON object whenever the
`action` query parameter is absent or not `lists`, and otherwise wraps the
board's lists, fetched via `get_board_list(board_id, fields='name')`, in
the `result` field. -/
theorem view_ajax_lists_dispatch (c : TrelloClient) (t : Transport)
    (query : List (String × String)) (board_id : String) (lists : Json)
    (hb : alookup query "board_id" = some board_id)
    (hl : t (boardListsReq c board_id) = .ok lists) :
    ((alookup query "action").getD "" ≠ "lists" →
      TrelloCard.view_ajax c t query = ([], .ok (Json.obj []))) ∧
    ((alookup query "action").getD "" = "lists" →
      TrelloCard.view_ajax c t query =
        ([boardListsReq c board_id], .ok (Json.obj [("result", lists)]))) := by
  constructor
  · intro hne
    simp [TrelloCard.view_ajax, hne]
  · intro heq
    simp only [boardListsReq] at hl
    simp [TrelloCard.view_ajax, heq, hb, TrelloClient.get_board_list,
      TrelloClient.request, boardListsReq, hl, Except.mapError, Except.map]

/-- Witness for C8: a concrete `action=lists` query served by `t5`. -/
theorem view_ajax_lists_dispatch_witness :
    TrelloCard.view_ajax cDemo t5 [("action", "lists"), ("board_id", "1")] =
      ([boardListsReq cDemo "1"],
       .ok (Json.obj [("result", Json.arr [mkItemJson ("15", "List A")])])) :=
  (view_ajax_lists_dispatch cDemo t5 [("action", "lists"), ("board_id", "1")]
    "1" (Json.arr [mkItemJson ("15", "List A")]) rfl rfl).2 rfl

/-- Evaluating the `(x['id'], x['name'])` loop on a well-formed item list. -/
theorem id_name_options_map (ps : List (String × String)) :
    id_name_options (ps.map mkItemJson) =
      .ok (ps.map (fun p => (Json.str p.1, Json.str p.2))) := by
  induction ps with
  | nil => rfl
  | cons p ps ih => simp [id_name_options, mkItemJson, jGet, alookup, ih]

/-- Evaluating the outer loop of `boards_to_options` on well-formed board
objects: one list request per board, in board order, and the nested
`(board name, (list id, list name) pairs)` structure. -/
theorem board_group_eval (c : TrelloClient) (t : Transport)
    (bs : List BoardData)
    (h : ∀ b ∈ bs, t (boardListsReq c b.id) =
      .ok (Json.arr (b.lists.map mkItemJson))) :
    TrelloClient.board_group c t (bs.map mkBoardJson) =
      (bs.map (fun b => boardListsReq c b.id),
       .ok (bs.map (fun b =>
         (Json.str b.name,
          b.lists.map (fun l => (Json.str l.1, Json.str l.2)))))) := by
  induction bs with
  | nil => rfl
  | cons b bs ih =>
    have hb := h b (List.mem_cons_self b bs)
    have hrest : ∀ x ∈ bs, t (boardListsReq c x.id) =
        .ok (Json.arr (x.lists.map mkItemJson)) :=
      fun x hx => h x (List.mem_cons_of_mem b hx)
    simp only [boardListsReq] at hb
    simp [TrelloClient.board_group, mkBoardJson, jGet, alookup, pyStr,
      TrelloClient.get_board_list, TrelloClient.request, hb, Except.mapError,
      iterElems, id_name_options_map, ih hrest, boardListsReq, Except.map]

/-- Claim C5 (amended): assembling the cascade issues `2 + n` requests for
`n` boards — one for the member's organizations, one for the organization's
boards, and one per board for its lists — and composes the responses into
`(org id, name)` pairs and `(board name, (list id, list name) pairs)` in
API order. -/
theorem cascade_calls_and_structure (c : TrelloClient) (t : Transport)
    (member org : String) (orgs : List (String × String))
    (boards : List BoardData)
    (h1 : t (orgsListReq c member) = .ok (Json.arr (orgs.map mkItemJson)))
    (h2 : t (orgBoardsReq c org) = .ok (Json.arr (boards.map mkBoardJson)))
    (h3 : ∀ b ∈ boards, t (boardListsReq c b.id) =
      .ok (Json.arr (b.lists.map mkItemJson))) :
    c.organizations_to_options t member =
      ([orgsListReq c member],
       .ok (orgs.map (fun p => (Json.str p.1, Json.str p.2)))) ∧
    c.boards_to_options t org =
      (orgBoardsReq c org :: boards.map (fun b => boardListsReq c b.id),
       .ok (boards.map (fun b =>
         (Json.str b.name,
          b.lists.map (fun l => (Json.str l.1, Json.str l.2)))))) ∧
    ((c.organizations_to_options t member).1 ++
      (c.boards_to_options t org).1).length = 2 + boards.length := by
  simp only [orgsListReq] at h1
  simp only [orgBoardsReq] at h2
  have horg : c.organizations_to_options t member =
      ([orgsListReq c member],
       .ok (orgs.map (fun p => (Json.str p.1, Json.str p.2)))) := by
    simp [TrelloClient.organizations_to_options,
      TrelloClient.get_organization_list, TrelloClient.request, h1,
      Except.mapError, iterElems, id_name_options_map, orgsListReq]
  have hboards : c.boards_to_options t org =
      (orgBoardsReq c org :: boards.map (fun b => boardListsReq c b.id),
       .ok (boards.map (fun b =>
         (Json.str b.name,
          b.lists.map (fun l => (Json.str l.1, Json.str l.2)))))) := by
    simp [TrelloClient.boards_to_options,
      TrelloClient.get_organization_board, TrelloClient.request, h2,
      Except.mapError, iterElems, board_group_eval c t boards h3,
      orgBoardsReq]
  refine ⟨horg, hboards, ?_⟩
  rw [horg, hboards]
  simp
  omega

/-- Witness for the amended C5: the two-board fixture served by `t5`. -/
theorem cascade_calls_and_structure_witness :
    cDemo.organizations_to_options t5 "me" =
      ([orgsListReq cDemo "me"],
       .ok ([("3", "Bar")].map (fun p => (Json.str p.1, Json.str p.2)))) ∧
    cDemo.boards_to_options t5 "3" =
      (orgBoardsReq cDemo "3" ::
        [b5a, b5b].map (fun b => boardListsReq cDemo b.id),
       .ok ([b5a, b5b].map (fun b =>
         (Json.str b.name,
          b.lists.map (fun l => (Json.str l.1, Json.str l.2)))))) ∧
    ((cDemo.organizations_to_options t5 "me").1 ++
      (cDemo.boards_to_options t5 "3").1).length = 2 + [b5a, b5b].length :=
  cascade_calls_and_structure cDemo t5 "me" "3" [("3", "Bar")] [b5a, b5b]
    rfl rfl
    (by
      intro b hbmem
      rcases List.mem_cons.mp hbmem with hcase | hbmem2
      · rw [hcase]; rfl
      · rcases List.mem_cons.mp hbmem2 with hcase | hnil
        · rw [hcase]; rfl
        · cases hnil)

/-- Counterexample to C5 as stated: with one organization and two boards
the assembly is a real, successful run, yet it issues four API calls, not
three. -/
theorem cascade_is_four_calls_not_three :
    ((cDemo.organizations_to_options t5 "me").1 ++
      (cDemo.boards_to_options t5 "3").1).length = 4 ∧
    ((cDemo.organizations_to_options t5 "me").1 ++
      (cDemo.boards_to_options t5 "3").1).length ≠ 3 ∧
    (cDemo.organizations_to_options t5 "me").2 =
      .ok [(Json.str "3", Json.str "Bar")] ∧
    (cDemo.boards_to_options t5 "3").2 =
      .ok [(Json.str "Foo", [(Json.str "15", Json.str "List A")]),
           (Json.str "Baz", [])] := by
  refine ⟨rfl, by decide, rfl, rfl⟩
